import Mathlib

/-!
Shallow embedding of DiskUtilsLib.hpp: a Windows disk-properties library.
The OS storage stack (CreateFileW, DeviceIoControl, CloseHandle) is modelled
as a stub environment `OSEnv`; handle values are allocated from a counter
(the `world`), and every successful open / close is recorded in a trace of
handle events so that resource release can be stated.  Byte strings are
modelled as `List Nat`; machine integers as `Nat` with explicit `% 2 ^ w`
where the width matters (the LONGLONG product is modelled as 64-bit
wraparound, which coincides with the source for products below `2 ^ 63`).
-/

namespace DiskUtilsLib

/-- Size of the stack buffer `BYTE buffer[1024]` in `GetDiskProperties`. -/
def bufSize : Nat := 1024

/-- The byte-scan loop of `GetDiskProperties`
`while (p[len] != 0 && len < sizeof(buffer)) ++len;`
where `p = buffer + off`.  `mem i` is the byte the scan would see at
position `i` relative to the buffer start (positions `≥ bufSize` are
adjacent stack memory, not the buffer).  The fuel argument only bounds the
recursion; with initial fuel `bufSize + 1` it never runs out, because the
guard `len < bufSize` stops the loop at `len = bufSize`. -/
def scanLenAux (mem : Nat → Nat) (off : Nat) : Nat → Nat → Nat
  | len, 0 => len
  | len, fuel + 1 =>
    if mem (off + len) ≠ 0 ∧ len < bufSize then scanLenAux mem off (len + 1) fuel
    else len

/-- Length at which the scan loop of `GetDiskProperties` stops, starting
from relative buffer position `off`. -/
def scanLen (mem : Nat → Nat) (off : Nat) : Nat :=
  scanLenAux mem off 0 (bufSize + 1)

/-- `std::string(buffer + off, len)`: the `len` bytes from position `off`. -/
def readBytes (mem : Nat → Nat) (off : Nat) (len : Nat) : List Nat :=
  (List.range len).map fun i => mem (off + i)

/-- Largest position the scan loop reads: the guard evaluates
`p[len] != 0` before `len < sizeof(buffer)`, so the byte at the final
length is always read. -/
def scanMaxRead (mem : Nat → Nat) (off : Nat) : Nat :=
  off + scanLen mem off

/-- `STORAGE_DEVICE_DESCRIPTOR` as the code uses it: the two offset fields
and the memory the scans read (buffer content at positions `< bufSize`,
adjacent memory beyond). -/
structure StorageDescriptor where
  serialNumberOffset : Nat
  productIdOffset : Nat
  mem : Nat → Nat

/-- `DISK_GEOMETRY`: the four fields used by the size computation. -/
structure DiskGeometry where
  cylinders : Nat
  tracksPerCylinder : Nat
  sectorsPerTrack : Nat
  bytesPerSector : Nat

/-- The three data members of `DiskPropertiesFetcher` (and the three
out-parameters of `GetDiskProperties`): serial number, model, and
`size.QuadPart` as a 64-bit value. -/
structure DiskProps where
  serial : List Nat
  model : List Nat
  size : Nat
deriving DecidableEq

/-- `serialNumber(""), model(""), size({ 0 })`: the member initializers of
`DiskPropertiesFetcher`. -/
def emptyProps : DiskProps := ⟨[], [], 0⟩

/-- Handle events recorded by the embedding: a successful `CreateFileW`
and a `CloseHandle`, tagged with the handle value. -/
inductive HEvent where
  | opened (h : Nat)
  | closed (h : Nat)
deriving DecidableEq

/-- Stub of the OS storage stack.  Opens are keyed by the path / disk
index they address; `none` (or `false`) models the corresponding call
failing (INVALID_HANDLE_VALUE, or `DeviceIoControl` returning FALSE). -/
structure OSEnv where
  openVolume : String → Bool
  volumeExtents : String → Option (List Nat)
  openDisk : Nat → Bool
  queryProperty : Nat → Option StorageDescriptor
  queryGeometry : Nat → Option DiskGeometry

/-- Result of one embedded call: return value, the world (next fresh
handle id) after the call, and the handle events the call performed. -/
structure CallOut (α : Type) where
  ret : α
  world : Nat
  trace : List HEvent
deriving DecidableEq

/-- `DiskUtils::GetVolumeDiskExtents`: open the volume; on open failure
return `false`; query the disk extents; on query failure close and return
`false`; otherwise push every returned disk number, in order, onto
`diskNumbers`, close, and return `true`. -/
def GetVolumeDiskExtents (env : OSEnv) (w : Nat) (volumePath : String)
    (diskNumbers : List Nat) : CallOut (Bool × List Nat) :=
  if env.openVolume volumePath then
    match env.volumeExtents volumePath with
    | none => ⟨(false, diskNumbers), w + 1, [.opened w, .closed w]⟩
    | some exts => ⟨(true, diskNumbers ++ exts), w + 1, [.opened w, .closed w]⟩
  else ⟨(false, diskNumbers), w, []⟩

/-- `DiskUtils::GetDiskProperties`: open the physical drive; on open
failure return `false` leaving the out-parameters `st` untouched; query
the storage device property; on failure close and return `false`; else,
for each of the two descriptor offsets that is nonzero, run the scan loop
from that offset and overwrite the corresponding out-parameter with the
scanned bytes (a zero offset leaves the out-parameter as it was); query
the drive geometry; on failure close and return `false` (serial/model
keep any values just written, `size` untouched); on success set
`size.QuadPart` to the product of the four geometry fields (64-bit),
close, and return `true`. -/
def GetDiskProperties (env : OSEnv) (w : Nat) (diskNumber : Nat)
    (st : DiskProps) : CallOut (Bool × DiskProps) :=
  if env.openDisk diskNumber then
    match env.queryProperty diskNumber with
    | none => ⟨(false, st), w + 1, [.opened w, .closed w]⟩
    | some desc =>
      let serial :=
        if desc.serialNumberOffset ≠ 0 then
          readBytes desc.mem desc.serialNumberOffset
            (scanLen desc.mem desc.serialNumberOffset)
        else st.serial
      let model :=
        if desc.productIdOffset ≠ 0 then
          readBytes desc.mem desc.productIdOffset
            (scanLen desc.mem desc.productIdOffset)
        else st.model
      match env.queryGeometry diskNumber with
      | none => ⟨(false, ⟨serial, model, st.size⟩), w + 1, [.opened w, .closed w]⟩
      | some dg =>
        let sz := (dg.cylinders * dg.tracksPerCylinder * dg.sectorsPerTrack *
          dg.bytesPerSector) % 2 ^ 64
        ⟨(true, ⟨serial, model, sz⟩), w + 1, [.opened w, .closed w]⟩
  else ⟨(false, st), w, []⟩

/-- The constructor loop of `DiskPropertiesFetcher`: try each disk number
in order, passing the data members as out-parameters; return as soon as
one read succeeds.  A failed read's partial writes stay in the members. -/
def fetchLoop (env : OSEnv) : List Nat → Nat → DiskProps →
    DiskProps × Nat × List HEvent
  | [], w, st => (st, w, [])
  | d :: rest, w, st =>
    let r := GetDiskProperties env w d st
    if r.ret.1 then (r.ret.2, r.world, r.trace)
    else
      let q := fetchLoop env rest r.world r.ret.2
      (q.1, q.2.1, r.trace ++ q.2.2)

/-- The `DiskPropertiesFetcher` constructor: members start empty/zero;
resolve the volume to disk numbers; if that fails the members stay
empty/zero; otherwise run the trial loop.  Returns the final members,
together with the final world and the handle-event trace. -/
def DiskPropertiesFetcher (env : OSEnv) (w : Nat) (volumePath : String) :
    DiskProps × Nat × List HEvent :=
  let r := GetVolumeDiskExtents env w volumePath []
  if r.ret.1 then
    let q := fetchLoop env r.ret.2 r.world emptyProps
    (q.1, q.2.1, r.trace ++ q.2.2)
  else (emptyProps, r.world, r.trace)

/-- The data members a constructed fetcher exposes through its accessors. -/
def fetchProps (env : OSEnv) (w : Nat) (volumePath : String) : DiskProps :=
  (DiskPropertiesFetcher env w volumePath).1

/-- Accessor `DiskSerialNumber()`. -/
def DiskSerialNumber (p : DiskProps) : List Nat := p.serial

/-- Accessor `DiskModel()`. -/
def DiskModel (p : DiskProps) : List Nat := p.model

/-- Accessor `DiskSize()`:
`static_cast<DWORD>(size.QuadPart / (1024 * 1024 * 1024))`. -/
def DiskSize (p : DiskProps) : Nat :=
  (p.size / (1024 * 1024 * 1024)) % 2 ^ 32

/-- Whether `GetDiskProperties` succeeds for disk `d` under `env`; this
depends only on the environment, not on the incoming out-parameters. -/
def diskReadOk (env : OSEnv) (d : Nat) : Bool :=
  env.openDisk d && (env.queryProperty d).isSome && (env.queryGeometry d).isSome

/-- Whether the read of disk `d` fails before the string extraction
(device open failure or property-query failure). -/
def diskReadEarlyFail (env : OSEnv) (d : Nat) : Bool :=
  !(env.openDisk d && (env.queryProperty d).isSome)

/-- A byte string `s` is stored (NUL-terminated, inside the buffer) at
offset `off`: its bytes are nonzero, a zero byte follows it, and the
terminator still lies within the 1024-byte buffer. -/
def storedAt (mem : Nat → Nat) (off : Nat) (s : List Nat) : Prop :=
  (∀ i, (h : i < s.length) → mem (off + i) = s.get ⟨i, h⟩ ∧ s.get ⟨i, h⟩ ≠ 0) ∧
  mem (off + s.length) = 0 ∧ off + s.length < bufSize

/-- A handle-event trace is balanced when every opened handle is closed,
stack-like: `pending` holds the handles currently open. -/
def closesFrom : List HEvent → List Nat → Bool
  | [], pending => pending.isEmpty
  | .opened h :: rest, pending => closesFrom rest (h :: pending)
  | .closed h :: rest, pending =>
    match pending with
    | [] => false
    | h' :: t => h == h' && closesFrom rest t

/-- Every handle opened during the trace is closed by its end. -/
def balancedTrace (tr : List HEvent) : Bool :=
  closesFrom tr []

/-- The whole fetch fails to obtain any disk's properties: the volume does
not open, or the extent query fails, or every resolved disk's read fails. -/
def fetchFails (env : OSEnv) (v : String) : Prop :=
  env.openVolume v = false ∨ env.volumeExtents v = none ∨
    (∃ l, env.volumeExtents v = some l ∧ ∀ d ∈ l, diskReadOk env d = false)

/-- As `fetchFails`, but every failing disk read fails before any string
extraction could have happened. -/
def fetchFailsEarly (env : OSEnv) (v : String) : Prop :=
  env.openVolume v = false ∨ env.volumeExtents v = none ∨
    (∃ l, env.volumeExtents v = some l ∧ ∀ d ∈ l, diskReadEarlyFail env d = true)

/-! ### Concrete stub environments used as test inputs -/

/-- Memory seen by the scan: nonzero byte 65 at every position below 2000,
zero from 2000 on.  Inside the buffer it is a descriptor payload with no
NUL terminator after offset 1000. -/
def memC1 : Nat → Nat := fun i => if i < 2000 then 65 else 0

/-- One disk, descriptor with serial-number offset 1000 over `memC1`. -/
def envC1 : OSEnv :=
  ⟨fun _ => true, fun _ => some [0], fun _ => true,
    fun _ => some ⟨1000, 0, memC1⟩, fun _ => some ⟨1, 1, 1, 512⟩⟩

/-- Bytes 65 66 ("AB") at offsets 40-41, zero elsewhere. -/
def mem40AB : Nat → Nat :=
  fun i => if i = 40 then 65 else if i = 41 then 66 else 0

/-- One disk whose property query yields serial "AB" but whose geometry
query fails, so the disk read fails after writing the serial. -/
def envC2 : OSEnv :=
  ⟨fun _ => true, fun _ => some [0], fun _ => true,
    fun _ => some ⟨40, 0, mem40AB⟩, fun _ => none⟩

/-- Environment where nothing succeeds at all. -/
def envC2w : OSEnv :=
  ⟨fun _ => false, fun _ => none, fun _ => false, fun _ => none, fun _ => none⟩

/-- Two disks: disk 1's read writes serial "AB" then fails at geometry;
disk 2's read succeeds with both descriptor offsets zero. -/
def envC3 : OSEnv :=
  ⟨fun _ => true, fun _ => some [1, 2], fun _ => true,
    fun d => if d = 1 then some ⟨40, 0, mem40AB⟩ else some ⟨0, 0, fun _ => 0⟩,
    fun d => if d = 1 then none else some ⟨1, 1, 1, 512⟩⟩

/-- Byte 83 ("S") at offset 100, byte 77 ("M") at offset 200. -/
def memC4 : Nat → Nat :=
  fun i => if i = 100 then 83 else if i = 200 then 77 else 0

/-- One disk with a well-formed descriptor and an absurd geometry whose
byte size is `2 ^ 62`. -/
def envC4 : OSEnv :=
  ⟨fun _ => true, fun _ => some [0], fun _ => true,
    fun _ => some ⟨100, 200, memC4⟩,
    fun _ => some ⟨4294967296, 1073741824, 1, 1⟩⟩

/-- Descriptor with serial [83] at offset 100 and model [77] at 200. -/
def desc4w : StorageDescriptor := ⟨100, 200, memC4⟩

/-- The spec's example geometry. -/
def geom4w : DiskGeometry := ⟨1000, 255, 63, 512⟩

/-- One disk with the well-formed descriptor `desc4w` and the example
geometry `geom4w`. -/
def env4w : OSEnv :=
  ⟨fun _ => true, fun _ => some [0], fun _ => true,
    fun _ => some desc4w, fun _ => some geom4w⟩

/-- Byte 66 at offset 40, byte 67 at offset 50, zero elsewhere. -/
def mem5 : Nat → Nat :=
  fun i => if i = 40 then 66 else if i = 50 then 67 else 0

/-- Disk 1 fails to open; every other disk's read succeeds with serial
[66] and model [67]. -/
def env5 : OSEnv :=
  ⟨fun _ => true, fun _ => some [1, 2], fun d => d ≠ 1,
    fun _ => some ⟨40, 50, mem5⟩, fun _ => some ⟨1, 1, 1, 512⟩⟩

/-- A volume whose extent query reports disk 0 twice and then disk 1. -/
def env6 : OSEnv :=
  ⟨fun _ => true, fun _ => some [0, 0, 1], fun _ => false,
    fun _ => none, fun _ => none⟩

/-- Descriptor with both offsets zero. -/
def desc8 : StorageDescriptor := ⟨0, 0, fun _ => 0⟩

/-- One disk with the spec's example geometry (1000, 255, 63, 512). -/
def env8 : OSEnv :=
  ⟨fun _ => true, fun _ => some [0], fun _ => true,
    fun _ => some desc8, fun _ => some ⟨1000, 255, 63, 512⟩⟩

/-- One disk whose property query writes serial "AB" and whose geometry
query fails. -/
def env10 : OSEnv :=
  ⟨fun _ => true, fun _ => some [0], fun _ => true,
    fun _ => some ⟨40, 0, mem40AB⟩, fun _ => none⟩

/-- Incoming out-parameter values for the frame test. -/
def st10 : DiskProps := ⟨[1], [2], 42⟩

/-! ### Scan-loop lemmas -/

theorem scanLenAux_stop (mem : Nat → Nat) (off len fuel : Nat)
    (h : mem (off + len) = 0) : scanLenAux mem off len fuel = len := by
  cases fuel with
  | zero => rfl
  | succ f => simp [scanLenAux, h]

theorem scanLenAux_reach (mem : Nat → Nat) (off : Nat) : ∀ k len fuel,
    (∀ j, j < k → mem (off + (len + j)) ≠ 0) →
    mem (off + (len + k)) = 0 → len + k ≤ bufSize → k < fuel →
    scanLenAux mem off len fuel = len + k := by
  intro k
  induction k with
  | zero =>
    intro len fuel _ h0 _ _
    simpa using scanLenAux_stop mem off len fuel (by simpa using h0)
  | succ k ih =>
    intro len fuel hj h0 hle hfuel
    cases fuel with
    | zero => omega
    | succ f =>
      have hne : mem (off + len) ≠ 0 := by
        have := hj 0 (Nat.succ_pos k)
        simpa using this
      have hlt : len < bufSize := by omega
      have hstep : scanLenAux mem off len (f + 1) = scanLenAux mem off (len + 1) f := by
        simp [scanLenAux, hne, hlt]
      rw [hstep]
      have := ih (len + 1) f
        (fun j hjk => by
          have := hj (j + 1) (by omega)
          simpa [Nat.add_assoc, Nat.add_comm, Nat.add_left_comm] using this)
        (by simpa [Nat.add_assoc, Nat.add_comm, Nat.add_left_comm] using h0)
        (by omega) (by omega)
      omega

/-- For a string properly stored and NUL-terminated inside the buffer, the
scan loop stops exactly at the string's length. -/
theorem scanLen_stored (mem : Nat → Nat) (off : Nat) (s : List Nat)
    (h : storedAt mem off s) : scanLen mem off = s.length := by
  obtain ⟨hbytes, hzero, hbound⟩ := h
  have := scanLenAux_reach mem off s.length 0 (bufSize + 1)
    (fun j hjk => by
      have := (hbytes j hjk).2
      have hb := (hbytes j hjk).1
      simpa [hb] using this)
    (by simpa using hzero) (by omega) (by omega)
  simpa [scanLen] using this

/-- For a string properly stored inside the buffer, the scanned bytes are
exactly that string. -/
theorem readBytes_stored (mem : Nat → Nat) (off : Nat) (s : List Nat)
    (h : storedAt mem off s) : readBytes mem off s.length = s := by
  obtain ⟨hbytes, _, _⟩ := h
  apply List.ext_get
  · simp [readBytes]
  · intro i h1 h2
    have hi : i < s.length := h2
    have := (hbytes i hi).1
    simp [readBytes, this]

/-! ### Characterizations of the embedded calls -/

theorem GetDiskProperties_ret_ok (env : OSEnv) (w d : Nat) (st : DiskProps) :
    (GetDiskProperties env w d st).ret.1 = diskReadOk env d := by
  unfold GetDiskProperties diskReadOk
  cases hod : env.openDisk d with
  | false => simp
  | true =>
    cases hq : env.queryProperty d with
    | none => simp
    | some desc =>
      cases hg : env.queryGeometry d with
      | none => simp
      | some dg => simp

/-- On every failure return, the `size` out-parameter is untouched. -/
theorem GetDiskProperties_size_frame (env : OSEnv) (w d : Nat) (st : DiskProps)
    (h : (GetDiskProperties env w d st).ret.1 = false) :
    (GetDiskProperties env w d st).ret.2.size = st.size := by
  unfold GetDiskProperties at *
  cases hod : env.openDisk d with
  | false => simp [hod]
  | true =>
    cases hq : env.queryProperty d with
    | none => simp [hod, hq]
    | some desc =>
      cases hg : env.queryGeometry d with
      | none => simp [hod, hq, hg]
      | some dg => simp [hod, hq, hg] at h

/-- The return value of `GetDiskProperties` does not depend on the world
(the handle counter). -/
theorem GetDiskProperties_ret_world (env : OSEnv) (w w' d : Nat)
    (st : DiskProps) :
    (GetDiskProperties env w d st).ret = (GetDiskProperties env w' d st).ret := by
  unfold GetDiskProperties
  cases hod : env.openDisk d with
  | false => simp
  | true =>
    cases hq : env.queryProperty d with
    | none => simp
    | some desc =>
      cases hg : env.queryGeometry d with
      | none => simp
      | some dg => simp

/-- The return value of `GetVolumeDiskExtents` does not depend on the
world. -/
theorem GetVolumeDiskExtents_ret_world (env : OSEnv) (w w' : Nat)
    (v : String) (acc : List Nat) :
    (GetVolumeDiskExtents env w v acc).ret =
      (GetVolumeDiskExtents env w' v acc).ret := by
  unfold GetVolumeDiskExtents
  cases hov : env.openVolume v with
  | false => simp
  | true =>
    cases hx : env.volumeExtents v with
    | none => simp
    | some l => simp

/-- The final members computed by the trial loop do not depend on the
world. -/
theorem fetchLoop_st_world (env : OSEnv) : ∀ (l : List Nat) (w w' : Nat)
    (st : DiskProps), (fetchLoop env l w st).1 = (fetchLoop env l w' st).1 := by
  intro l
  induction l with
  | nil => intro w w' st; rfl
  | cons d rest ih =>
    intro w w' st
    have hret := GetDiskProperties_ret_world env w w' d st
    simp only [fetchLoop, hret]
    cases hb : (GetDiskProperties env w' d st).ret.1 with
    | true => simp
    | false =>
      simp only [hb, if_false, Bool.false_eq_true]
      exact ih _ _ _

/-- The fetched members do not depend on the world. -/
theorem fetchProps_world (env : OSEnv) (w w' : Nat) (v : String) :
    fetchProps env w v = fetchProps env w' v := by
  unfold fetchProps DiskPropertiesFetcher
  have hret := GetVolumeDiskExtents_ret_world env w w' v []
  simp only [hret]
  cases hb : (GetVolumeDiskExtents env w' v []).ret.1 with
  | true =>
    simp only [hb, if_true]
    exact fetchLoop_st_world env _ _ _ _
  | false => simp

/-- A read that fails before string extraction leaves all three
out-parameters untouched (and fails). -/
theorem GetDiskProperties_early_frame (env : OSEnv) (w d : Nat) (st : DiskProps)
    (h : diskReadEarlyFail env d = true) :
    (GetDiskProperties env w d st).ret.2 = st ∧
      (GetDiskProperties env w d st).ret.1 = false := by
  unfold diskReadEarlyFail at h
  unfold GetDiskProperties
  cases hod : env.openDisk d with
  | false => simp
  | true =>
    cases hq : env.queryProperty d with
    | none => simp
    | some desc => simp [hod, hq] at h

/-- If every disk in the list fails its read, the loop leaves `size`
untouched. -/
theorem fetchLoop_size_frame (env : OSEnv) : ∀ (l : List Nat) (w : Nat)
    (st : DiskProps), (∀ d ∈ l, diskReadOk env d = false) →
    (fetchLoop env l w st).1.size = st.size := by
  intro l
  induction l with
  | nil => intro w st _; rfl
  | cons d rest ih =>
    intro w st hall
    have hd : diskReadOk env d = false := hall d (List.mem_cons_self d rest)
    have hret : (GetDiskProperties env w d st).ret.1 = false := by
      rw [GetDiskProperties_ret_ok]; exact hd
    simp only [fetchLoop, hret, if_false, Bool.false_eq_true]
    have hsz := GetDiskProperties_size_frame env w d st hret
    rw [ih _ _ (fun x hx => hall x (List.mem_cons_of_mem d hx))]
    exact hsz

/-- If every disk in the list fails its read before string extraction,
the loop leaves the members entirely untouched. -/
theorem fetchLoop_early_frame (env : OSEnv) : ∀ (l : List Nat) (w : Nat)
    (st : DiskProps), (∀ d ∈ l, diskReadEarlyFail env d = true) →
    (fetchLoop env l w st).1 = st := by
  intro l
  induction l with
  | nil => intro w st _; rfl
  | cons d rest ih =>
    intro w st hall
    have hd := GetDiskProperties_early_frame env w d st
      (hall d (List.mem_cons_self d rest))
    simp only [fetchLoop, hd.2, if_false, Bool.false_eq_true]
    rw [hd.1, ih _ _ (fun x hx => hall x (List.mem_cons_of_mem d hx))]

/-- If the volume does not open or the extent query fails, the fetcher
keeps its initial empty members. -/
theorem fetchProps_resolve_fail (env : OSEnv) (w : Nat) (v : String)
    (h : env.openVolume v = false ∨ env.volumeExtents v = none) :
    fetchProps env w v = emptyProps := by
  unfold fetchProps DiskPropertiesFetcher GetVolumeDiskExtents
  rcases h with h | h
  · simp [h]
  · cases hov : env.openVolume v with
    | false => simp
    | true => simp [h]

/-- If the volume resolves to `l`, the fetcher runs the trial loop on `l`
starting from empty members. -/
theorem fetchProps_resolve_some (env : OSEnv) (w : Nat) (v : String)
    (l : List Nat) (hov : env.openVolume v = true)
    (hx : env.volumeExtents v = some l) :
    fetchProps env w v = (fetchLoop env l (w + 1) emptyProps).1 := by
  unfold fetchProps DiskPropertiesFetcher GetVolumeDiskExtents
  simp [hov, hx]

/-- Characterization of a fully successful disk read: it returns `true`
and the members hold the scanned strings (or the old values, for a zero
offset) and the 64-bit geometry product. -/
theorem GetDiskProperties_success_props (env : OSEnv) (w d : Nat)
    (st : DiskProps) (desc : StorageDescriptor) (g : DiskGeometry)
    (hod : env.openDisk d = true) (hq : env.queryProperty d = some desc)
    (hg : env.queryGeometry d = some g) :
    (GetDiskProperties env w d st).ret.1 = true ∧
    (GetDiskProperties env w d st).ret.2 =
      ⟨if desc.serialNumberOffset ≠ 0 then
          readBytes desc.mem desc.serialNumberOffset
            (scanLen desc.mem desc.serialNumberOffset)
        else st.serial,
       if desc.productIdOffset ≠ 0 then
          readBytes desc.mem desc.productIdOffset
            (scanLen desc.mem desc.productIdOffset)
        else st.model,
       (g.cylinders * g.tracksPerCylinder * g.sectorsPerTrack *
         g.bytesPerSector) % 2 ^ 64⟩ := by
  unfold GetDiskProperties
  simp [hod, hq, hg]

/-- A one-disk trial loop whose read succeeds yields that read's members. -/
theorem fetchLoop_single (env : OSEnv) (w d : Nat) (st : DiskProps)
    (h : (GetDiskProperties env w d st).ret.1 = true) :
    (fetchLoop env [d] w st).1 = (GetDiskProperties env w d st).ret.2 := by
  simp [fetchLoop, h]

/-! ### Claim C1 -/

set_option maxRecDepth 100000 in
/-- Claim C1 states that the scan for the terminating zero byte never
reads outside the 1024-byte buffer and stops at the buffer's end when the
string is unterminated.  The code violates this: the loop guard bounds the
length counter (`serialLength < sizeof(buffer)`), not the absolute
position `offset + serialLength`, and it reads the byte before testing the
bound.  Evaluated at a successful property query whose descriptor has
serial-number offset 1000 and no NUL terminator inside the buffer tail:
the scan runs for 1000 bytes, its last read position `scanMaxRead` is 2000
(far beyond index 1023), and the resulting serial value is 1000 bytes
long, 976 of which lie outside the buffer. -/
theorem claim1_scan_overrun :
    scanLen memC1 1000 = 1000 ∧
    bufSize < scanMaxRead memC1 1000 ∧
    (GetDiskProperties envC1 0 0 emptyProps).ret.1 = true ∧
    (GetDiskProperties envC1 0 0 emptyProps).ret.2.serial.length = 1000 ∧
    bufSize < 1000 + (GetDiskProperties envC1 0 0 emptyProps).ret.2.serial.length := by
  decide

/-! ### Claim C2 -/

/-- Counterexample to claim C2 as stated: under `envC2` the volume
resolves to disk 0 and disk 0's property read fails (its geometry query
fails), so the fetch obtains no disk's properties — yet the fetcher's
serial is "AB", written by the failed read before the geometry stage, so
the result is not all-empty. -/
theorem claim2_counterexample :
    diskReadOk envC2 0 = false ∧
    (fetchProps envC2 0 "V").serial = [65, 66] ∧
    (fetchProps envC2 0 "V").size = 0 ∧
    fetchProps envC2 0 "V" ≠ emptyProps := by
  decide

/-- Claim C2 (amended): for every volume path on which the fetch cannot
obtain any disk's properties, the fetcher ends up with size 0 (and a
gigabyte accessor of 0) and no error reaches the caller; the serial and
model are moreover empty whenever resolution failed or every failing read
failed before string extraction (at device open or at the property
query).  A read failing only at the geometry stage may leave the strings
it wrote in the members. -/
theorem claim2_all_fail (env : OSEnv) (w : Nat) (v : String) :
    (fetchFails env v →
      (fetchProps env w v).size = 0 ∧ DiskSize (fetchProps env w v) = 0) ∧
    (fetchFailsEarly env v → fetchProps env w v = emptyProps) := by
  constructor
  · intro h
    have hz : (fetchProps env w v).size = 0 := by
      rcases h with h | h | ⟨l, hx, hall⟩
      · rw [fetchProps_resolve_fail env w v (Or.inl h)]; rfl
      · rw [fetchProps_resolve_fail env w v (Or.inr h)]; rfl
      · cases hov : env.openVolume v with
        | false => rw [fetchProps_resolve_fail env w v (Or.inl hov)]; rfl
        | true =>
          rw [fetchProps_resolve_some env w v l hov hx]
          exact fetchLoop_size_frame env l (w + 1) emptyProps hall
    exact ⟨hz, by simp [DiskSize, hz]⟩
  · intro h
    rcases h with h | h | ⟨l, hx, hall⟩
    · exact fetchProps_resolve_fail env w v (Or.inl h)
    · exact fetchProps_resolve_fail env w v (Or.inr h)
    · cases hov : env.openVolume v with
      | false => exact fetchProps_resolve_fail env w v (Or.inl hov)
      | true =>
        rw [fetchProps_resolve_some env w v l hov hx]
        exact fetchLoop_early_frame env l (w + 1) emptyProps hall

/-- Witness for claim C2 at the environment where the volume open fails:
size 0, gigabyte accessor 0, all members empty. -/
theorem claim2_all_fail_witness :
    (fetchProps envC2w 0 "X").size = 0 ∧
    DiskSize (fetchProps envC2w 0 "X") = 0 ∧
    fetchProps envC2w 0 "X" = emptyProps :=
  ⟨((claim2_all_fail envC2w 0 "X").1 (Or.inl rfl)).1,
   ((claim2_all_fail envC2w 0 "X").1 (Or.inl rfl)).2,
   (claim2_all_fail envC2w 0 "X").2 (Or.inl rfl)⟩

/-! ### Claim C3 -/

/-- Counterexample to claim C3 as stated: under `envC3` the successful
read is disk 2, whose descriptor has serial-number offset 0, yet the
fetcher's serial is "AB" — a value written by disk 1's earlier read, which
failed at the geometry stage; the zero offset leaves the out-parameter
unchanged rather than producing the empty string. -/
theorem claim3_counterexample :
    Option.map (fun desc => desc.serialNumberOffset) (envC3.queryProperty 2) =
      some 0 ∧
    diskReadOk envC3 2 = true ∧
    (fetchProps envC3 0 "V").serial = [65, 66] ∧
    (fetchProps envC3 0 "V").serial ≠ [] := by
  decide

/-- Claim C3 (amended): a serial-number offset of 0 makes the property
read leave the serial out-parameter exactly as it was — no byte at offset
zero is ever interpreted — so the serial is exactly empty whenever the
incoming value was empty (as on the first read of a freshly constructed
fetcher); a nonempty value left by an earlier failed read persists. -/
theorem claim3_zero_offset_frame (env : OSEnv) (w d : Nat) (st : DiskProps)
    (h : ∀ desc, env.queryProperty d = some desc → desc.serialNumberOffset = 0) :
    (GetDiskProperties env w d st).ret.2.serial = st.serial ∧
    (st.serial = [] → (GetDiskProperties env w d st).ret.2.serial = []) := by
  have main : (GetDiskProperties env w d st).ret.2.serial = st.serial := by
    unfold GetDiskProperties
    cases hod : env.openDisk d with
    | false => simp
    | true =>
      cases hq : env.queryProperty d with
      | none => simp
      | some desc =>
        have h0 : desc.serialNumberOffset = 0 := h desc hq
        cases hg : env.queryGeometry d with
        | none => simp [h0]
        | some dg => simp [h0]
  exact ⟨main, fun he => by rw [main, he]⟩

/-- Witness for claim C3 at a zero-offset descriptor and a fresh (empty)
out-parameter: the serial stays exactly empty. -/
theorem claim3_zero_offset_frame_witness :
    (GetDiskProperties env8 0 0 emptyProps).ret.2.serial = [] :=
  (claim3_zero_offset_frame env8 0 0 emptyProps
    (fun desc hd => by injection hd with h2; rw [← h2]; rfl)).2 rfl

/-! ### Claim C4 -/

/-- Counterexample to claim C4 as stated: under `envC4` the volume
resolves to one disk whose open, property, and geometry queries all
succeed, with a configured size of `2 ^ 62` bytes; the floor of
bytes / 2^30 is `2 ^ 32`, but the gigabyte accessor casts to a 32-bit
DWORD and returns 0. -/
theorem claim4_counterexample :
    diskReadOk envC4 0 = true ∧
    (fetchProps envC4 0 "V").size = 4611686018427387904 ∧
    (fetchProps envC4 0 "V").size / 2 ^ 30 = 4294967296 ∧
    DiskSize (fetchProps envC4 0 "V") = 0 ∧
    (0 : Nat) ≠ 4294967296 := by
  decide

/-- Claim C4 (amended): for every valid volume path resolving to a single
backing disk whose open, property, and geometry queries all succeed, with
both descriptor strings present and NUL-terminated in the buffer, fetch
yields exactly the configured (nonempty) serial and model strings and the
configured byte size, and — provided the gigabyte quotient fits in 32 bits
(size below `2 ^ 62` bytes, true of any realistic disk) — a gigabyte
accessor equal to floor(configured bytes / 2^30). -/
theorem claim4_success_fetch (env : OSEnv) (w : Nat) (v : String) (d : Nat)
    (desc : StorageDescriptor) (g : DiskGeometry) (sSer sMod : List Nat)
    (hov : env.openVolume v = true) (hx : env.volumeExtents v = some [d])
    (hod : env.openDisk d = true) (hq : env.queryProperty d = some desc)
    (hso : desc.serialNumberOffset ≠ 0) (hpo : desc.productIdOffset ≠ 0)
    (hs : storedAt desc.mem desc.serialNumberOffset sSer)
    (hm : storedAt desc.mem desc.productIdOffset sMod)
    (hsne : sSer ≠ []) (hmne : sMod ≠ [])
    (hg : env.queryGeometry d = some g)
    (hfit : g.cylinders * g.tracksPerCylinder * g.sectorsPerTrack *
      g.bytesPerSector < 2 ^ 62) :
    DiskSerialNumber (fetchProps env w v) = sSer ∧ sSer ≠ [] ∧
    DiskModel (fetchProps env w v) = sMod ∧ sMod ≠ [] ∧
    (fetchProps env w v).size =
      g.cylinders * g.tracksPerCylinder * g.sectorsPerTrack *
        g.bytesPerSector ∧
    DiskSize (fetchProps env w v) =
      g.cylinders * g.tracksPerCylinder * g.sectorsPerTrack *
        g.bytesPerSector / 2 ^ 30 := by
  have hprops := GetDiskProperties_success_props env (w + 1) d emptyProps
    desc g hod hq hg
  have hfetch : fetchProps env w v =
      (GetDiskProperties env (w + 1) d emptyProps).ret.2 := by
    rw [fetchProps_resolve_some env w v [d] hov hx,
      fetchLoop_single env (w + 1) d emptyProps hprops.1]
  have hlt64 : g.cylinders * g.tracksPerCylinder * g.sectorsPerTrack *
      g.bytesPerSector < 2 ^ 64 := lt_trans hfit (by norm_num)
  have hser : (GetDiskProperties env (w + 1) d emptyProps).ret.2.serial = sSer := by
    rw [hprops.2]
    simp only [if_pos hso]
    rw [scanLen_stored desc.mem desc.serialNumberOffset sSer hs,
      readBytes_stored desc.mem desc.serialNumberOffset sSer hs]
  have hmod : (GetDiskProperties env (w + 1) d emptyProps).ret.2.model = sMod := by
    rw [hprops.2]
    simp only [if_pos hpo]
    rw [scanLen_stored desc.mem desc.productIdOffset sMod hm,
      readBytes_stored desc.mem desc.productIdOffset sMod hm]
  have hsz : (GetDiskProperties env (w + 1) d emptyProps).ret.2.size =
      g.cylinders * g.tracksPerCylinder * g.sectorsPerTrack *
        g.bytesPerSector := by
    rw [hprops.2]
    exact Nat.mod_eq_of_lt hlt64
  refine ⟨?_, hsne, ?_, hmne, ?_, ?_⟩
  · rw [DiskSerialNumber, hfetch, hser]
  · rw [DiskModel, hfetch, hmod]
  · rw [hfetch, hsz]
  · rw [DiskSize, hfetch, hsz]
    have hq32 : g.cylinders * g.tracksPerCylinder * g.sectorsPerTrack *
        g.bytesPerSector / 2 ^ 30 < 2 ^ 32 := by
      rw [Nat.div_lt_iff_lt_mul (by norm_num : 0 < 2 ^ 30)]
      calc g.cylinders * g.tracksPerCylinder * g.sectorsPerTrack *
          g.bytesPerSector < 2 ^ 62 := hfit
        _ = 2 ^ 32 * 2 ^ 30 := by norm_num
    exact Nat.mod_eq_of_lt hq32

/-- The serial string [83] is stored NUL-terminated at offset 100. -/
theorem stored4wS : storedAt memC4 100 [83] :=
  ⟨fun i h => by
      have h1 : i < 1 := by simpa using h
      have hi : i = 0 := by omega
      subst hi
      exact show memC4 (100 + 0) = 83 ∧ (83 : Nat) ≠ 0 by decide,
    by decide, by decide⟩

/-- The model string [77] is stored NUL-terminated at offset 200. -/
theorem stored4wM : storedAt memC4 200 [77] :=
  ⟨fun i h => by
      have h1 : i < 1 := by simpa using h
      have hi : i = 0 := by omega
      subst hi
      exact show memC4 (200 + 0) = 77 ∧ (77 : Nat) ≠ 0 by decide,
    by decide, by decide⟩

/-- Witness for claim C4 at `env4w` (the spec's example geometry): serial
[83], model [77], size 1000×255×63×512 = 8225280000, accessor 7. -/
theorem claim4_success_fetch_witness :
    DiskSerialNumber (fetchProps env4w 0 "V") = [83] ∧
    DiskModel (fetchProps env4w 0 "V") = [77] ∧
    (fetchProps env4w 0 "V").size = 8225280000 ∧
    DiskSize (fetchProps env4w 0 "V") = 7 := by
  have h := claim4_success_fetch env4w 0 "V" 0 desc4w geom4w [83] [77]
    rfl rfl rfl rfl (by decide) (by decide) stored4wS stored4wM
    (by decide) (by decide) rfl (by decide)
  refine ⟨h.1, h.2.2.1, ?_, ?_⟩
  · rw [h.2.2.2.2.1]; decide
  · rw [h.2.2.2.2.2]; decide

/-! ### Claim C5 -/

/-- Claim C5: the fetcher tries the resolved disk indices in exactly the
given order and adopts the result of the first index whose read succeeds,
never attempting the remaining indices (`rest` is arbitrary and never
consulted in the success case); on a failed read it moves on to the rest
of the list with the threaded members. -/
theorem claim5_first_success (env : OSEnv) (w d : Nat) (rest : List Nat)
    (st : DiskProps) :
    ((GetDiskProperties env w d st).ret.1 = true →
      fetchLoop env (d :: rest) w st =
        ((GetDiskProperties env w d st).ret.2,
         (GetDiskProperties env w d st).world,
         (GetDiskProperties env w d st).trace)) ∧
    ((GetDiskProperties env w d st).ret.1 = false →
      fetchLoop env (d :: rest) w st =
        ((fetchLoop env rest (GetDiskProperties env w d st).world
            (GetDiskProperties env w d st).ret.2).1,
         (fetchLoop env rest (GetDiskProperties env w d st).world
            (GetDiskProperties env w d st).ret.2).2.1,
         (GetDiskProperties env w d st).trace ++
           (fetchLoop env rest (GetDiskProperties env w d st).world
              (GetDiskProperties env w d st).ret.2).2.2)) := by
  constructor
  · intro h
    simp [fetchLoop, h]
  · intro h
    simp [fetchLoop, h]

/-- Witness for claim C5 under `env5`: disk 1's read fails, disk 2's read
succeeds, so the loop on [1, 2, 99] adopts disk 2's properties and never
consults disk 99. -/
theorem claim5_first_success_witness :
    (GetDiskProperties env5 0 1 emptyProps).ret.1 = false ∧
    (fetchLoop env5 [1, 2, 99] 0 emptyProps).1 = ⟨[66], [67], 512⟩ := by
  refine ⟨by decide, ?_⟩
  have h1 := (claim5_first_success env5 0 1 [2, 99] emptyProps).2 (by decide)
  have h2 := (claim5_first_success env5
    (GetDiskProperties env5 0 1 emptyProps).world 2 [99]
    (GetDiskProperties env5 0 1 emptyProps).ret.2).1 (by decide)
  rw [h1, h2]
  decide

/-! ### Claim C6 -/

/-- Claim C6: when the OS answers the extent query with a list of disk
indices, the resolver appends all of them to the output list in the order
returned — without deduplicating (`l` is arbitrary and may repeat
indices) — and reports success. -/
theorem claim6_extents_append (env : OSEnv) (w : Nat) (v : String)
    (acc l : List Nat) (hov : env.openVolume v = true)
    (hx : env.volumeExtents v = some l) :
    GetVolumeDiskExtents env w v acc =
      ⟨(true, acc ++ l), w + 1, [.opened w, .closed w]⟩ := by
  unfold GetVolumeDiskExtents
  simp [hov, hx]

/-- Witness for claim C6 at an extent answer with a duplicated index:
[0, 0, 1] is appended verbatim and the call succeeds. -/
theorem claim6_extents_append_witness :
    GetVolumeDiskExtents env6 5 "V" [] =
      ⟨(true, [0, 0, 1]), 6, [.opened 5, .closed 5]⟩ := by
  simpa using claim6_extents_append env6 5 "V" [] [0, 0, 1] rfl rfl

/-! ### Claim C7 -/

/-- Claim C7: on every exit path of the resolver and on every exit path of
the property reader, the handle-event trace is balanced — every handle
opened during the call is closed before it returns. -/
theorem claim7_handles_released (env : OSEnv) (w : Nat) (v : String)
    (acc : List Nat) (d : Nat) (st : DiskProps) :
    balancedTrace (GetVolumeDiskExtents env w v acc).trace = true ∧
    balancedTrace (GetDiskProperties env w d st).trace = true := by
  constructor
  · unfold GetVolumeDiskExtents
    cases hov : env.openVolume v with
    | false => simp [balancedTrace, closesFrom]
    | true =>
      cases hx : env.volumeExtents v with
      | none => simp [balancedTrace, closesFrom]
      | some l => simp [balancedTrace, closesFrom]
  · unfold GetDiskProperties
    cases hod : env.openDisk d with
    | false => simp [balancedTrace, closesFrom]
    | true =>
      cases hq : env.queryProperty d with
      | none => simp [balancedTrace, closesFrom]
      | some desc =>
        cases hg : env.queryGeometry d with
        | none => simp [balancedTrace, closesFrom]
        | some dg => simp [balancedTrace, closesFrom]

/-- Witness for claim C7 at concrete calls of both functions. -/
theorem claim7_handles_released_witness :
    balancedTrace (GetVolumeDiskExtents env6 3 "V" []).trace = true ∧
    balancedTrace (GetDiskProperties env8 0 0 emptyProps).trace = true :=
  ⟨(claim7_handles_released env6 3 "V" [] 0 emptyProps).1,
   (claim7_handles_released env8 0 "V" [] 0 emptyProps).2⟩

/-! ### Claim C8 -/

/-- Claim C8: for every successful geometry query, the stored size is the
product of cylinders, tracks-per-cylinder, sectors-per-track and
bytes-per-sector in 64-bit arithmetic — exactly the product whenever it
fits in 64 bits — and in particular the geometry (1000, 255, 63, 512)
yields 1000×255×63×512 = 8225280000 bytes and a gigabyte accessor of 7. -/
theorem claim8_size_product :
    (∀ (env : OSEnv) (w d : Nat) (st : DiskProps) (desc : StorageDescriptor)
      (g : DiskGeometry), env.openDisk d = true →
      env.queryProperty d = some desc → env.queryGeometry d = some g →
      (GetDiskProperties env w d st).ret.1 = true ∧
      (GetDiskProperties env w d st).ret.2.size =
        (g.cylinders * g.tracksPerCylinder * g.sectorsPerTrack *
          g.bytesPerSector) % 2 ^ 64 ∧
      (g.cylinders * g.tracksPerCylinder * g.sectorsPerTrack *
          g.bytesPerSector < 2 ^ 64 →
        (GetDiskProperties env w d st).ret.2.size =
          g.cylinders * g.tracksPerCylinder * g.sectorsPerTrack *
            g.bytesPerSector)) ∧
    (GetDiskProperties env8 0 0 emptyProps).ret.2.size = 8225280000 ∧
    1000 * 255 * 63 * 512 = 8225280000 ∧
    DiskSize (GetDiskProperties env8 0 0 emptyProps).ret.2 = 7 := by
  refine ⟨?_, by decide, by decide, by decide⟩
  intro env w d st desc g hod hq hg
  have h := GetDiskProperties_success_props env w d st desc g hod hq hg
  refine ⟨h.1, ?_, ?_⟩
  · rw [h.2]
  · intro hlt
    rw [h.2]
    exact Nat.mod_eq_of_lt hlt

/-- Witness for claim C8, applying its universal part at `env8`. -/
theorem claim8_size_product_witness :
    (GetDiskProperties env8 0 0 emptyProps).ret.2.size =
      (1000 * 255 * 63 * 512) % 2 ^ 64 :=
  (claim8_size_product.1 env8 0 0 emptyProps desc8 ⟨1000, 255, 63, 512⟩
    rfl rfl rfl).2.1

/-! ### Claim C9 -/

/-- Claim C9: two fetch operations on the same stubbed environment return
identical members no matter what handle-allocation state (world) each
instance starts from, and a fetch run sequentially after another fetch
(starting from the world the first one left behind) returns exactly what
an independent fetch returns — no state flows from one operation to the
next. -/
theorem claim9_no_shared_state (env : OSEnv) (w w' : Nat) (v v1 v2 : String) :
    fetchProps env w v = fetchProps env w' v ∧
    fetchProps env (DiskPropertiesFetcher env w v1).2.1 v2 =
      fetchProps env w' v2 :=
  ⟨fetchProps_world env w w' v,
   fetchProps_world env (DiskPropertiesFetcher env w v1).2.1 w' v2⟩

/-! ### Claim C10 -/

/-- Claim C10: `GetDiskProperties` assigns the size out-parameter only
after the geometry query has succeeded — on every failure return the
caller's size value is exactly what it was before the call (even though
serial and model may already have been overwritten). -/
theorem claim10_size_assigned_late (env : OSEnv) (w d : Nat) (st : DiskProps)
    (h : (GetDiskProperties env w d st).ret.1 = false) :
    (GetDiskProperties env w d st).ret.2.size = st.size :=
  GetDiskProperties_size_frame env w d st h

/-- Witness for claim C10 at `env10`, whose geometry query fails after the
serial was overwritten: the call fails, size stays 42, serial changed. -/
theorem claim10_size_assigned_late_witness :
    (GetDiskProperties env10 0 0 st10).ret.1 = false ∧
    (GetDiskProperties env10 0 0 st10).ret.2.size = 42 ∧
    (GetDiskProperties env10 0 0 st10).ret.2.serial ≠ st10.serial :=
  ⟨by decide, claim10_size_assigned_late env10 0 0 st10 (by decide), by decide⟩

end DiskUtilsLib
